import Mathlib

/-!
# Verification of the npm fetcher (`bitbake/lib/bb/fetch2/npm.py`)

Shallow embedding of the npm fetch engine of this repository: registry
metadata resolution with version-drift detection, dual-scheme integrity
verification (subresource integrity and legacy SHA-1 shasum), resumable
download command construction with post-transfer checks, shrinkwrap
lockfile selection and the depth-first post-order dependency walk.

Conventions of the embedding:
* Python strings are Lean `String`s (character lists); the ASCII character
  classes of the semver regex are modelled over ASCII characters.
* Python dicts that come from parsed JSON preserve insertion order, so a
  JSON object is modelled as an ordered association list.
* Exceptions are modelled with `Except NpmError`.
* External hash functions (`bb.utils.sha*_file`) are modelled by a record
  of the hexadecimal digests of the artifact under each algorithm, which
  is what those functions return.
-/

/-- Errors raised by the npm fetcher.  `missingParameterError` and
`parameterError` model `MissingParameterError` / `ParameterError`,
`fetchError` and `checksumError` carry the message of the corresponding
`FetchError` / `ChecksumError`, `valueError` / `binasciiError` /
`indexError` model the built-in Python exceptions that escape, and
`fatalNoLockfile` models the `bb.fatal` call of `get_shrinkwrap_file`. -/
inductive NpmError where
  | missingParameterError
  | parameterError
  | fetchError (msg : String)
  | checksumError (msg : String)
  | valueError
  | binasciiError
  | indexError
  | fatalNoLockfile
  deriving DecidableEq

/-- ASCII decimal digit (the `\d` class of the source regex, restricted to
ASCII as the version strings at hand are ASCII). -/
def isAsciiDigitChar (c : Char) : Bool :=
  '0' ≤ c && c ≤ '9'

/-- The `[0-9a-zA-Z-]` character class of the source regex. -/
def isIdentChar (c : Char) : Bool :=
  isAsciiDigitChar c || ('a' ≤ c && c ≤ 'z') || ('A' ≤ c && c ≤ 'Z') || c = '-'

/-- The `(0|[1-9]\d*)` alternative of the source regex: a numeric
identifier without leading zeros. -/
def isNumericIdent : List Char → Bool
  | [] => false
  | ['0'] => true
  | c :: cs => ('1' ≤ c && c ≤ '9') && cs.all isAsciiDigitChar

/-- The `(0|[1-9]\d*|\d*[a-zA-Z-][0-9a-zA-Z-]*)` pre-release identifier of
the source regex: over the class `[0-9a-zA-Z-]`, an all-digit identifier
must have no leading zeros, and an identifier with at least one non-digit
is unrestricted. -/
def isPrereleaseIdent (cs : List Char) : Bool :=
  if cs.all isAsciiDigitChar then isNumericIdent cs
  else cs.all isIdentChar && cs ≠ []

/-- The `[0-9a-zA-Z-]+` build identifier of the source regex. -/
def isBuildIdent (cs : List Char) : Bool :=
  cs ≠ [] && cs.all isIdentChar

/-- Split a character list at the first occurrence of `sep`, if any
(Python `str.split(sep, maxsplit=1)` when it yields two parts). -/
def splitFirstChar (sep : Char) : List Char → Option (List Char × List Char)
  | [] => none
  | c :: cs =>
    if c = sep then some ([], cs)
    else
      match splitFirstChar sep cs with
      | none => none
      | some (a, b) => some (c :: a, b)

/-- Split a character list at every occurrence of `sep`
(Python `str.split(sep)`). -/
def splitAllChar (sep : Char) : List Char → List (List Char)
  | [] => [[]]
  | c :: cs =>
    if c = sep then [] :: splitAllChar sep cs
    else
      match splitAllChar sep cs with
      | [] => [[c]]
      | h :: t => (c :: h) :: t

/-- The body of the semver regex of `Npm._is_semver`:

`^(0|[1-9]\d*)\.(0|[1-9]\d*)\.(0|[1-9]\d*)(?:-(pre))?(?:\+(build))?$`

decomposed deterministically: the character classes of the version core
exclude `-` and all classes exclude `+`, so in any successful match the
first `+` of the string is the build separator and the first `-` before it
is the pre-release separator. -/
def semverRegexCore (s : List Char) : Bool :=
  let mainBuild : List Char × Option (List Char) :=
    match splitFirstChar '+' s with
    | none => (s, none)
    | some (a, b) => (a, some b)
  let corePre : List Char × Option (List Char) :=
    match splitFirstChar '-' mainBuild.1 with
    | none => (mainBuild.1, none)
    | some (a, b) => (a, some b)
  (match splitAllChar '.' corePre.1 with
   | [x, y, z] => isNumericIdent x && isNumericIdent y && isNumericIdent z
   | _ => false)
  && (match corePre.2 with
      | none => true
      | some p => (splitAllChar '.' p).all isPrereleaseIdent)
  && (match mainBuild.2 with
      | none => true
      | some b => (splitAllChar '.' b).all isBuildIdent)

/-- Embedding of `Npm._is_semver`: `regex.match(version)` with the anchored verbose
pattern above, under Python semantics where the `$` anchor also matches
just before a single newline at the very end of the string.  Hence the
match succeeds exactly when the core pattern matches the whole string or
the whole string minus one trailing newline. -/
def «_is_semver» (version : String) : Bool :=
  semverRegexCore version.data ||
    (match version.data.getLast? with
     | some c => c = '\n' && semverRegexCore version.data.dropLast
     | none => false)

/-- Modelled from the spec: a syntactically valid semantic version per the
semver 2.0.0 grammar, i.e. three dot-separated numeric components without
leading zeros, followed by optional pre-release and build suffixes, with
nothing (in particular no trailing newline) before or after. -/
def semver_spec (version : String) : Bool :=
  semverRegexCore version.data

/-- The version validation of `Npm.urldata_init`: an absent/empty version
raises `MissingParameterError`; a version that is neither semver (per
`_is_semver`) nor the sentinel `latest` raises `ParameterError`;
otherwise initialization proceeds. -/
def urldata_init_version_check (version : String) : Except NpmError Unit :=
  if version = "" then .error .missingParameterError
  else if ¬ «_is_semver» version ∧ version ≠ "latest" then .error .parameterError
  else .ok ()

example : «_is_semver» "1.2.3" = true := by decide
example : «_is_semver» "1.2.3-alpha.1+build.05" = true := by decide
example : «_is_semver» "01.2.3" = false := by decide
example : «_is_semver» "1.2.3.4" = false := by decide
example : «_is_semver» "1.2.3-" = false := by decide
example : «_is_semver» "1.2.3--" = true := by decide
example : «_is_semver» "1.2.3\n" = true := by decide
example : «_is_semver» "latest" = false := by decide
example : urldata_init_version_check "latest" = .ok () := rfl
example : urldata_init_version_check "1.2.x" = .error .parameterError := rfl

/-- Hexadecimal digests of the downloaded artifact, as returned by the
external helpers `bb.utils.sha1_file` / `sha256_file` / `sha384_file` /
`sha512_file` (lowercase hexadecimal strings). -/
structure FileDigests where
  sha1 : String
  sha256 : String
  sha384 : String
  sha512 : String

/-- Value of a character of the standard base64 alphabet
(`base64.b64decode`). -/
def b64CharVal (c : Char) : Option Nat :=
  if 'A' ≤ c && c ≤ 'Z' then some (c.toNat - 65)
  else if 'a' ≤ c && c ≤ 'z' then some (c.toNat - 97 + 26)
  else if isAsciiDigitChar c then some (c.toNat - 48 + 52)
  else if c = '+' then some 62
  else if c = '/' then some 63
  else none

/-- Standard base64 decoding of a well-formed base64 text (groups of four
alphabet characters, with `=` padding only at the end), yielding the raw
bytes; `none` models the `binascii.Error` that `base64.b64decode` raises
on malformed padding. -/
def b64decodeChars : List Char → Option (List Nat)
  | [] => some []
  | [a, b, '=', '='] => do
    let va ← b64CharVal a
    let vb ← b64CharVal b
    some [va * 4 + vb / 16]
  | [a, b, c, '='] => do
    let va ← b64CharVal a
    let vb ← b64CharVal b
    let vc ← b64CharVal c
    some [va * 4 + vb / 16, vb % 16 * 16 + vc / 4]
  | a :: b :: c :: d :: rest => do
    let va ← b64CharVal a
    let vb ← b64CharVal b
    let vc ← b64CharVal c
    let vd ← b64CharVal d
    let tail ← b64decodeChars rest
    some ([va * 4 + vb / 16, vb % 16 * 16 + vc / 4, vc % 4 * 64 + vd] ++ tail)
  | _ => none

/-- Decoding `base64.b64decode` on a string. -/
def b64decode (s : String) : Option (List Nat) :=
  b64decodeChars s.data

/-- Rendering `bytes.hex()`: lowercase hexadecimal rendering of a byte sequence. -/
def bytesHex (bs : List Nat) : String :=
  String.mk (bs.flatMap fun b => [Nat.digitChar (b / 16), Nat.digitChar (b % 16)])

/-- Embedding of `Npm._check_integrity`: split the integrity token at the first `-`
into an algorithm name and a base64 payload (unpacking a split without a
`-` raises `ValueError`), decode the payload to bytes and hex-encode it,
then compare with the digest of the file under the named algorithm;
an unrecognised algorithm yields `False`. -/
def «_check_integrity» (integrity : String) (file : FileDigests) : Except NpmError Bool :=
  match splitFirstChar '-' integrity.data with
  | none => .error .valueError
  | some (algoChars, b64Chars) =>
    match b64decodeChars b64Chars with
    | none => .error .binasciiError
    | some bytes =>
      let algo := String.mk algoChars
      let value_hex := bytesHex bytes
      if algo = "sha256" then .ok (value_hex == file.sha256)
      else if algo = "sha384" then .ok (value_hex == file.sha384)
      else if algo = "sha512" then .ok (value_hex == file.sha512)
      else .ok false

/-- The verification step at the end of `Npm.download`: if the registry
view carries an `integrity` token it is checked with `_check_integrity`
(a failed check raises `ChecksumError`); otherwise, if it carries a
`shasum`, the SHA-1 digest of the file is compared against it; with
neither present the artifact is accepted unverified. -/
def download_verify (integrity : Option String) (shasum : Option String)
    (file : FileDigests) : Except NpmError Unit :=
  match integrity with
  | some i =>
    match «_check_integrity» i file with
    | .error e => .error e
    | .ok true => .ok ()
    | .ok false => .error (.checksumError "The fetched file integrity mismatch")
  | none =>
    match shasum with
    | some s =>
      if s == file.sha1 then .ok ()
      else .error (.checksumError "The fetched file shasum mismatch")
    | none => .ok ()

example : b64decode "q80=" = some [171, 205] := by decide
example : b64decode "3q2+7w==" = some [222, 173, 190, 239] := by decide
example : bytesHex [222, 173, 190, 239] = "deadbeef" := by decide
example : «_check_integrity» "sha256-q80=" ⟨"", "abcd", "", ""⟩ = .ok true := rfl
example : «_check_integrity» "md5-q80=" ⟨"", "abcd", "", ""⟩ = .ok false := rfl
example : «_check_integrity» "sha256" ⟨"", "abcd", "", ""⟩ = .error .valueError := rfl

/-- The JSON payload of `npm view --json`: either a single version record
or an array of version records (the registry orders them oldest to
newest). -/
inductive NpmViewJson (R : Type) where
  | single (record : R)
  | arr (records : List R)

/-- The record selection at the end of `Npm._run_npm_view`:
`if isinstance(view, list): return view[-1]` — the last element of an
array response (`view[-1]` on an empty list raises `IndexError`), and the
record itself for a single-record response.  No re-sorting of the records
takes place. -/
def npm_view_select {R : Type} : NpmViewJson R → Except NpmError R
  | .single record => .ok record
  | .arr records =>
    match records.getLast? with
    | some record => .ok record
    | none => .error .indexError

/-- The version-drift policy of `Npm.download` (lines 203-209): for the
sentinel `latest` a warning is emitted (`.ok true`) and the download
proceeds whatever the resolved version is; otherwise a resolved version
different from the requested one raises `ParameterError`, and an equal
one proceeds without warning (`.ok false`). -/
def download_version_check (udVersion viewVersion : String) : Except NpmError Bool :=
  if udVersion = "latest" then .ok true
  else if udVersion ≠ viewVersion then .error .parameterError
  else .ok false

/-- The post-transfer checks of `Npm.download` (lines 224-229), on the
state of the destination file: a missing file raises `FetchError`; an
existing empty file is removed (`os.remove`) and `FetchError` is raised;
otherwise the download goes on to verification.  The second component of
the result is whether a file remains at the destination afterwards. -/
def post_transfer_check (fileExists : Bool) (sizeBytes : Nat) :
    Except NpmError Unit × Bool :=
  if fileExists = false then
    (.error (.fetchError "The fetched file does not exist"), false)
  else if sizeBytes = 0 then
    (.error (.fetchError "The fetched file is empty"), false)
  else
    (.ok (), true)

/-- Embedding of `get_shrinkwrap_file` (inside `_parse_shrinkwrap`): the in-tree
shrinkwrap file is used when it exists on the filesystem; otherwise the
externally configured `NPM_SHRINKWRAP` path is used when that file
exists; otherwise `bb.fatal` aborts with the no-lockfile message. -/
def get_shrinkwrap_file (fsExists : String → Bool)
    (src_shrinkwrap npm_shrinkwrap : String) : Except NpmError String :=
  if fsExists src_shrinkwrap then .ok src_shrinkwrap
  else if fsExists npm_shrinkwrap then .ok npm_shrinkwrap
  else .error .fatalNoLockfile

/-- The file-selection step of `_parse_shrinkwrap`: an explicitly given
lockfile path is used as is; only when none is given does the
`get_shrinkwrap_file` fallback run. -/
def parse_shrinkwrap_select (fsExists : String → Bool)
    (src_shrinkwrap npm_shrinkwrap : String) (shrinkwrap_file : Option String) :
    Except NpmError String :=
  match shrinkwrap_file with
  | some f => .ok f
  | none => get_shrinkwrap_file fsExists src_shrinkwrap npm_shrinkwrap

/-- The wget command built by `Npm.download` (lines 211-220): the base
command, the output document, a `--continue` flag exactly when a file
already exists at the local path, the download directory and the tarball
uri. -/
def build_wget_cmd (basecmd localpath dl_dir uri : String)
    (fileExists : Bool) : String :=
  basecmd ++ " --output-document=\x27" ++ localpath ++ "\x27"
    ++ (if fileExists then " --continue" else "")
    ++ " --directory-prefix=" ++ dl_dir ++ " \x27" ++ uri ++ "\x27"

/-- Modelled from the spec: the transfer behaviour of the external wget
tool invoked by `Npm.download` (the tool itself is not part of this
repository).  With the `--continue` flag the request range starts at the
size of the existing partial file and only the remaining bytes are
transferred; without it the whole file is transferred. -/
def wget_transfer (resume : Bool) (existingBytes totalBytes : Nat) : Nat :=
  if resume then totalBytes - existingBytes else totalBytes

/-- Bytes transferred by one `Npm.download` call for an artifact of
`totalBytes` bytes: the code passes `--continue` exactly when a file
already exists at the destination (`existingFile` is its size then). -/
def npm_fetch_transfer (existingFile : Option Nat) (totalBytes : Nat) : Nat :=
  match existingFile with
  | some n => wget_transfer true n totalBytes
  | none => wget_transfer false 0 totalBytes

/-- A dependency entry of a shrinkwrap file: its `version` string and its
ordered `dependencies` object, modelled as an association list from
package name to entry (JSON objects parsed by `json.load` keep the order
of the file). -/
inductive SwDep where
  | mk (version : String) (dependencies : List (String × SwDep))

/-- The `version` field of a shrinkwrap dependency entry. -/
def SwDep.version : SwDep → String
  | .mk v _ => v

/-- The `dependencies` field of a shrinkwrap dependency entry. -/
def SwDep.dependencies : SwDep → List (String × SwDep)
  | .mk _ d => d

/-- Embedding of `walk_deps` (inside `foreach_dependencies`): for each entry of the
dependencies object, in declaration order, first walk its own
dependencies with the tree path extended by the entry's name, then emit
the callback result for the entry itself at that extended path. -/
def walk_deps (cb : String → String → List String → α) :
    List (String × SwDep) → List String → List α
  | [], _ => []
  | (name, SwDep.mk version children) :: rest, deptree =>
    walk_deps cb children (deptree ++ [name])
      ++ cb name version (deptree ++ [name]) :: walk_deps cb rest deptree

/-- Embedding of `foreach_dependencies` after parsing the shrinkwrap: run `walk_deps`
over the top-level `dependencies` object with an empty tree path. -/
def foreach_dependencies (cb : String → String → List String → α)
    (dependencies : List (String × SwDep)) : List α :=
  walk_deps cb dependencies []

/-- The relative install path built by `handle_dependency` inside
`unpack_dependencies`:
`os.path.join(*[os.path.join("node_modules", d) for d in deptree])`,
i.e. every path segment wrapped in a `node_modules` directory component
and the wrapped segments joined in order. -/
def unpack_relpath (deptree : List String) : String :=
  String.intercalate "/" (deptree.map fun n => "node_modules/" ++ n)

/-! ## Helper lemmas -/

/-- The walk emits, for each entry in declaration order, first the whole
recursive walk of its children and then the entry itself. -/
theorem walk_deps_flatMap {α : Type} (cb : String → String → List String → α)
    (deps : List (String × SwDep)) (deptree : List String) :
    walk_deps cb deps deptree
      = deps.flatMap (fun p =>
          walk_deps cb p.2.dependencies (deptree ++ [p.1])
            ++ [cb p.1 p.2.version (deptree ++ [p.1])]) := by
  induction deps with
  | nil => simp [walk_deps]
  | cons head rest ih =>
    obtain ⟨name, version, children⟩ := head
    simp [walk_deps, ih, SwDep.version, SwDep.dependencies]

/-- Every tuple emitted by the walk carries a tree path that extends the
starting path and ends in the tuple's own package name. -/
theorem walk_paths (deps : List (String × SwDep)) (pre : List String) :
    ∀ x ∈ walk_deps (fun a b c => (a, b, c)) deps pre,
      ∃ anc, x.2.2 = pre ++ anc ++ [x.1] := by
  induction deps, pre using walk_deps.induct
      (fun (a : String) (b : String) (c : List String) => (a, b, c)) with
  | case1 deptree => simp [walk_deps]
  | case2 name version children rest deptree ih1 ih2 =>
    intro x hx
    rw [walk_deps] at hx
    rcases List.mem_append.1 hx with h | h
    · obtain ⟨anc, ha⟩ := ih1 x h
      exact ⟨name :: anc, by simp [ha]⟩
    · rcases List.mem_cons.1 h with h | h
      · subst h
        exact ⟨[], by simp⟩
      · exact ih2 x h

/-- Splitting at the first occurrence of `sep` recovers the two halves of
a string assembled around a `sep` whose first half is `sep`-free. -/
theorem splitFirstChar_append (sep : Char) (a b : List Char) (h : sep ∉ a) :
    splitFirstChar sep (a ++ sep :: b) = some (a, b) := by
  induction a with
  | nil => simp [splitFirstChar]
  | cons c cs ih =>
    have hc : ¬(c = sep) := fun e => h (by simp [e])
    have hm : sep ∉ cs := fun m => h (List.mem_cons_of_mem _ m)
    simp [splitFirstChar, hc, ih hm]

/-- Lemma: `urldata_init` accepts a version exactly when the source regex
matches it or it is the sentinel `latest`. -/
theorem urldata_init_version_check_ok (version : String) :
    urldata_init_version_check version = .ok ()
      ↔ («_is_semver» version = true ∨ version = "latest") := by
  by_cases h0 : version = ""
  · subst h0
    constructor
    · intro h
      simp [urldata_init_version_check] at h
    · intro h
      rcases h with h | h
      · exact absurd h (by decide)
      · exact absurd h (by decide)
  · by_cases hs : «_is_semver» version = true
    · simp [urldata_init_version_check, h0, hs]
    · by_cases hl : version = "latest"
      · simp [urldata_init_version_check, h0, hs, hl]
      · simp [urldata_init_version_check, h0, hs, hl]

/-- The source regex accepts exactly the semver grammar, plus the same
with one trailing newline (the Python `$` anchor). -/
theorem is_semver_iff (version : String) :
    «_is_semver» version = true
      ↔ (semver_spec version = true
          ∨ (version.data.getLast? = some '\n'
              ∧ semver_spec (String.mk version.data.dropLast) = true)) := by
  unfold «_is_semver» semver_spec
  rw [Bool.or_eq_true]
  rcases hg : version.data.getLast? with _ | c
  · simp [hg]
  · simp [hg, Bool.and_eq_true, decide_eq_true_eq]

/-! ## Claim theorems -/

/-- Claim C1: for every package request with a version other than
`latest`, the download either obtains registry metadata whose resolved
version equals the requested version, or fails with the invalid-version
error; for a request with version exactly `latest`, a requested/resolved
difference never causes a failure, only a warning, and the download
proceeds. -/
theorem claim_C1_version_drift :
    (∀ requested resolved : String, requested ≠ "latest" →
        (download_version_check requested resolved = .ok false
            ∧ resolved = requested)
        ∨ (download_version_check requested resolved = .error .parameterError
            ∧ resolved ≠ requested)) ∧
    (∀ resolved : String,
        download_version_check "latest" resolved = .ok true) := by
  constructor
  · intro requested resolved hreq
    by_cases heq : requested = resolved
    · subst heq
      left
      exact ⟨by simp [download_version_check, hreq], rfl⟩
    · right
      exact ⟨by simp [download_version_check, hreq, heq],
        fun e => heq e.symm⟩
  · intro resolved
    simp [download_version_check]

/-- Witness for C1 at a concrete request. -/
theorem claim_C1_version_drift_witness :
    (download_version_check "1.3.0" "1.3.0" = .ok false ∧ "1.3.0" = "1.3.0")
    ∨ (download_version_check "1.3.0" "1.3.0" = .error .parameterError
        ∧ "1.3.0" ≠ "1.3.0") :=
  claim_C1_version_drift.1 "1.3.0" "1.3.0" (by decide)

/-- Claim C2: the dependency walk visits nodes depth-first post-order:
for each entry, in declaration order, the whole recursive walk of its
children is emitted before the entry itself; on the tree
`root -> \x7bA -> \x7bA1\x7d, B\x7d` the visit order is `A1, A, B`. -/
theorem claim_C2_postorder :
    (∀ (α : Type) (cb : String → String → List String → α)
        (deps : List (String × SwDep)) (deptree : List String),
      walk_deps cb deps deptree
        = deps.flatMap (fun p =>
            walk_deps cb p.2.dependencies (deptree ++ [p.1])
              ++ [cb p.1 p.2.version (deptree ++ [p.1])])) ∧
    foreach_dependencies (fun name _ _ => name)
        [("A", SwDep.mk "1.0.0" [("A1", SwDep.mk "1.0.0" [])]),
         ("B", SwDep.mk "1.0.0" [])]
      = ["A1", "A", "B"] := by
  constructor
  · intro α cb deps deptree
    exact walk_deps_flatMap cb deps deptree
  · simp [foreach_dependencies, walk_deps]

/-- Claim C3: after a successful download exactly one verification scheme
applies, in strict priority order: a present subresource-integrity token
is checked (mismatch raises the integrity `ChecksumError`) and the shasum
is then ignored; otherwise a present legacy SHA-1 shasum is compared with
the SHA-1 digest of the artifact (mismatch raises the shasum
`ChecksumError`); with neither present the artifact is accepted
unverified. -/
theorem claim_C3_verify_priority :
    ∀ (integrity shasum : String) (sh : Option String) (file : FileDigests),
      download_verify (some integrity) sh file
          = download_verify (some integrity) none file ∧
      download_verify (some integrity) sh file
          = (match «_check_integrity» integrity file with
             | .ok true => .ok ()
             | .ok false =>
                 .error (.checksumError "The fetched file integrity mismatch")
             | .error e => .error e) ∧
      download_verify none (some shasum) file
          = (if shasum == file.sha1 then .ok ()
             else .error (.checksumError "The fetched file shasum mismatch")) ∧
      download_verify none none file = .ok () := by
  intro integrity shasum sh file
  refine ⟨rfl, ?_, rfl, rfl⟩
  cases h : «_check_integrity» integrity file with
  | error e => simp [download_verify, h]
  | ok b => cases b <;> simp [download_verify, h]

/-- Claim C4: after every completed transfer, a missing destination file
fails with the file-missing `FetchError`; an existing zero-size
destination file fails with the empty-artifact `FetchError` and is
deleted, so no file remains at the destination; a non-empty file
passes. -/
theorem claim_C4_post_transfer :
    ∀ sizeBytes : Nat,
      post_transfer_check false sizeBytes
          = (.error (.fetchError "The fetched file does not exist"), false) ∧
      post_transfer_check true 0
          = (.error (.fetchError "The fetched file is empty"), false) ∧
      (∀ s : Nat, 0 < s → post_transfer_check true s = (.ok (), true)) := by
  intro sizeBytes
  refine ⟨rfl, rfl, ?_⟩
  intro s hs
  simp [post_transfer_check, Nat.pos_iff_ne_zero.mp hs]

/-- Witness for C4 at a concrete non-empty size. -/
theorem claim_C4_post_transfer_witness :
    0 < 5 ∧ post_transfer_check true 5 = (.ok (), true) :=
  ⟨by decide, (claim_C4_post_transfer 0).2.2 5 (by decide)⟩

/-- Claim C5: the SRI check splits the token at the first `-` into an
algorithm name and a base64 payload, decodes the payload to bytes,
hex-encodes it, and returns `true` exactly when that hex string equals
the locally computed digest of the artifact under the named algorithm
(sha256, sha384, sha512); any other algorithm name yields `false`
(verification failure), not an error. -/
theorem claim_C5_sri_check :
    ∀ (algo payload : String) (bytes : List Nat) (file : FileDigests),
      '-' ∉ algo.data →
      b64decode payload = some bytes →
      «_check_integrity» (algo ++ "-" ++ payload) file
        = .ok ((algo == "sha256" && bytesHex bytes == file.sha256)
            || (algo == "sha384" && bytesHex bytes == file.sha384)
            || (algo == "sha512" && bytesHex bytes == file.sha512)) := by
  intro algo payload bytes file hnd hb
  have hdata : (algo ++ "-" ++ payload).data = algo.data ++ '-' :: payload.data := by
    simp [String.data_append]
  simp only [b64decode] at hb
  unfold «_check_integrity»
  rw [hdata, splitFirstChar_append '-' algo.data payload.data hnd]
  dsimp only
  rw [hb]
  dsimp only
  have he : String.mk algo.data = algo := rfl
  rw [he]
  by_cases h1 : algo = "sha256"
  · subst h1
    have e1 : (("sha256" : String) == "sha384") = false := by decide
    have e2 : (("sha256" : String) == "sha512") = false := by decide
    simp [e1, e2]
  · by_cases h2 : algo = "sha384"
    · subst h2
      have e1 : (("sha384" : String) == "sha256") = false := by decide
      have e2 : (("sha384" : String) == "sha512") = false := by decide
      simp [e1, e2]
    · by_cases h3 : algo = "sha512"
      · subst h3
        have e1 : (("sha512" : String) == "sha256") = false := by decide
        have e2 : (("sha512" : String) == "sha384") = false := by decide
        simp [e1, e2]
      · have f1 := beq_eq_false_iff_ne.mpr h1
        have f2 := beq_eq_false_iff_ne.mpr h2
        have f3 := beq_eq_false_iff_ne.mpr h3
        simp [h1, h2, h3, f1, f2, f3]

/-- Witness for C5: a matching sha256 token and an unknown-algorithm
token on a concrete artifact. -/
theorem claim_C5_sri_check_witness :
    ('-' ∉ "md5".data ∧ b64decode "q80=" = some [171, 205]) ∧
    «_check_integrity» ("md5" ++ "-" ++ "q80=") ⟨"", "abcd", "", ""⟩
      = .ok ((("md5" : String) == "sha256" && bytesHex [171, 205] == "abcd")
          || (("md5" : String) == "sha384" && bytesHex [171, 205] == "")
          || (("md5" : String) == "sha512" && bytesHex [171, 205] == "")) :=
  ⟨⟨by decide, by decide⟩,
    claim_C5_sri_check "md5" "q80=" [171, 205] ⟨"", "abcd", "", ""⟩
      (by decide) (by decide)⟩

/-- Claim C6: every node handed to the visitor carries a path that is the
ordered concatenation of ancestor names from the tree root ending in the
node's own name (children are walked with the path extended by exactly
the parent's name), and materialization uses this list verbatim, each
segment wrapped in a `node_modules` directory component. -/
theorem claim_C6_paths :
    (∀ (deps : List (String × SwDep)) (pre : List String)
        (x : String × String × List String),
      x ∈ walk_deps (fun a b c => (a, b, c)) deps pre →
        ∃ anc, x.2.2 = pre ++ anc ++ [x.1]) ∧
    (∀ (α : Type) (cb : String → String → List String → α)
        (name version : String) (children rest : List (String × SwDep))
        (pre : List String),
      walk_deps cb ((name, SwDep.mk version children) :: rest) pre
        = walk_deps cb children (pre ++ [name])
            ++ cb name version (pre ++ [name]) :: walk_deps cb rest pre) ∧
    unpack_relpath ["A", "A1"] = "node_modules/A/node_modules/A1" := by
  refine ⟨?_, ?_, rfl⟩
  · intro deps pre x hx
    exact walk_paths deps pre x hx
  · intro α cb name version children rest pre
    rw [walk_deps]

/-- Witness for C6 at the node `A1` of the `root -> \x7bA -> \x7bA1\x7d, B\x7d`
tree. -/
theorem claim_C6_paths_witness :
    (("A1", "1.0.0", ["A", "A1"])
        ∈ walk_deps (fun a b c => (a, b, c))
            [("A", SwDep.mk "1.0.0" [("A1", SwDep.mk "1.0.0" [])]),
             ("B", SwDep.mk "1.0.0" [])] []) ∧
    (∃ anc, (("A1", "1.0.0", ["A", "A1"]) :
        String × String × List String).2.2
          = [] ++ anc ++ [("A1", ("1.0.0", ["A", "A1"])).1]) := by
  have hm : (("A1", "1.0.0", ["A", "A1"])
      ∈ walk_deps (fun a b c => (a, b, c))
          [("A", SwDep.mk "1.0.0" [("A1", SwDep.mk "1.0.0" [])]),
           ("B", SwDep.mk "1.0.0" [])] []) := by
    simp [walk_deps]
  exact ⟨hm, claim_C6_paths.1 _ _ _ hm⟩

/-- Claim C7: when the registry answers with an array of version records
the resolver returns the last element, without re-sorting; a
single-record answer is returned as is. -/
theorem claim_C7_last_record :
    (∀ (R : Type) (records : List R) (r : R),
        npm_view_select (.arr (records ++ [r])) = .ok r) ∧
    (∀ (R : Type) (r : R), npm_view_select (.single r) = .ok r) := by
  constructor
  · intro R records r
    simp [npm_view_select, List.getLast?_concat]
  · intro R r
    rfl

/-- Claim C8: lockfile selection is a fixed ordered fallback when no
explicit path is given: the in-tree shrinkwrap file when it exists, else
the externally configured path when that file exists, else the fatal
no-lockfile error; the in-tree file always wins over the external one. -/
theorem claim_C8_lockfile_fallback :
    ∀ (fsExists : String → Bool) (src_shrinkwrap npm_shrinkwrap : String),
      (fsExists src_shrinkwrap = true →
        parse_shrinkwrap_select fsExists src_shrinkwrap npm_shrinkwrap none
          = .ok src_shrinkwrap) ∧
      (fsExists src_shrinkwrap = false → fsExists npm_shrinkwrap = true →
        parse_shrinkwrap_select fsExists src_shrinkwrap npm_shrinkwrap none
          = .ok npm_shrinkwrap) ∧
      (fsExists src_shrinkwrap = false → fsExists npm_shrinkwrap = false →
        parse_shrinkwrap_select fsExists src_shrinkwrap npm_shrinkwrap none
          = .error .fatalNoLockfile) := by
  intro fsExists src npm
  refine ⟨fun h => ?_, fun h1 h2 => ?_, fun h1 h2 => ?_⟩ <;>
    simp [parse_shrinkwrap_select, get_shrinkwrap_file, *]

/-- Witness for C8: the in-tree file exists and is chosen over the
external one. -/
theorem claim_C8_lockfile_fallback_witness :
    (fun s => s == "intree") "intree" = true ∧
    parse_shrinkwrap_select (fun s => s == "intree") "intree" "external" none
      = .ok "intree" :=
  ⟨by decide,
    (claim_C8_lockfile_fallback (fun s => s == "intree") "intree" "external").1
      (by decide)⟩

/-- Claim C9: when a file already exists at the destination the built
download command carries the resume flag (and is otherwise identical to
the no-resume command), so a fetch of total size `t` interrupted after
`n` bytes transfers only the remaining `t - n` bytes on the second call;
with no existing file the download starts from the beginning. -/
theorem claim_C9_resume :
    ∀ (basecmd localpath dl_dir uri : String) (n t : Nat),
      n ≤ t →
      (∃ pre post,
        build_wget_cmd basecmd localpath dl_dir uri true
            = pre ++ " --continue" ++ post ∧
        build_wget_cmd basecmd localpath dl_dir uri false = pre ++ post) ∧
      npm_fetch_transfer (some n) t = t - n ∧
      n + npm_fetch_transfer (some n) t = t ∧
      npm_fetch_transfer none t = t := by
  intro basecmd localpath dl_dir uri n t hnt
  refine ⟨⟨basecmd ++ " --output-document=\x27" ++ localpath ++ "\x27",
    " --directory-prefix=" ++ dl_dir ++ " \x27" ++ uri ++ "\x27", ?_, ?_⟩,
    rfl, ?_, rfl⟩
  · apply String.ext
    simp [build_wget_cmd, String.data_append]
  · apply String.ext
    simp [build_wget_cmd, String.data_append]
  · simp [npm_fetch_transfer, wget_transfer, Nat.add_sub_cancel' hnt]

/-- Witness for C9 at a concrete interrupted fetch (3 of 10 bytes
present). -/
theorem claim_C9_resume_witness :
    3 ≤ 10 ∧
    ((∃ pre post,
        build_wget_cmd "wget" "file.tgz" "downloads" "http://reg/x.tgz" true
            = pre ++ " --continue" ++ post ∧
        build_wget_cmd "wget" "file.tgz" "downloads" "http://reg/x.tgz" false
            = pre ++ post) ∧
      npm_fetch_transfer (some 3) 10 = 10 - 3 ∧
      3 + npm_fetch_transfer (some 3) 10 = 10 ∧
      npm_fetch_transfer none 10 = 10) :=
  ⟨by decide,
    claim_C9_resume "wget" "file.tgz" "downloads" "http://reg/x.tgz" 3 10
      (by decide)⟩

/-- Counterexample for C10: the version string `1.2.3` followed by a
newline is not a valid semver string and is not `latest`, yet
`urldata_init` accepts it, because the `$` anchor of the Python regex
also matches just before a trailing newline. -/
theorem claim_C10_counterexample :
    urldata_init_version_check "1.2.3\n" = .ok ()
      ∧ semver_spec "1.2.3\n" = false
      ∧ "1.2.3\n" ≠ "latest" :=
  ⟨rfl, by decide, by decide⟩

/-- Claim C10 (amended): at URL-data initialization a version string
passes exactly when it is a syntactically valid semantic version, or a
valid semantic version followed by one trailing newline (accepted because
the regex `$` anchor matches before a final newline), or the exact
sentinel `latest`; every other string is rejected with a parameter
error. -/
theorem claim_C10_version_gate :
    ∀ version : String,
      urldata_init_version_check version = .ok ()
        ↔ (semver_spec version = true
            ∨ (version.data.getLast? = some '\n'
                ∧ semver_spec (String.mk version.data.dropLast) = true)
            ∨ version = "latest") := by
  intro version
  rw [urldata_init_version_check_ok, is_semver_iff]
  tauto
